import Mathlib

/-
Verification of the github-zip backup tool (src/src/github_backup) against its
natural-language specification.  The Python modules are shallowly embedded:
the orchestration functions of backup_manager.py become pure Lean functions
over explicit collaborator-outcome parameters (clone result, archive result,
Dropbox API results, listing results), and the bookkeeping dictionaries become
structures.
-/

set_option autoImplicit false

namespace GithubZip

/-- Repository record, from the `Repository` dataclass in github_client.py.
The source field `private` is named `priv` here because `private` is a Lean
keyword; `size` is the size in KB as reported by the listing. -/
structure Repository where
  name : String
  full_name : String
  clone_url : String
  default_branch : String
  priv : Bool
  size : Nat
  updated_at : String
deriving DecidableEq

/-- The four externally visible steps of `BackupManager.backup_repository`
(backup_manager.py lines 126-167): git clone, zip-archive creation, Dropbox
folder creation, Dropbox upload. -/
inductive Step where
  | clone
  | archive
  | folderEnsure
  | upload
deriving DecidableEq

/-- Outcome of the `subprocess.run` git-clone call (backup_manager.py lines
132-134): either the process exits with a code and captured stderr, or the
300-second timeout fires (`subprocess.TimeoutExpired`). -/
inductive CloneResult where
  | exit (code : Int) (stderr : String)
  | timeout
deriving DecidableEq

/-- Outcome of a Python step that either returns a value or raises an
exception carrying a message. -/
inductive StepResult (α : Type) where
  | ok (a : α)
  | exn (msg : String)
deriving DecidableEq

/-- Outcome of the Dropbox `files_create_folder_v2` call as seen by
`DropboxClient.create_folder` (dropbox_client.py lines 96-116): the folder is
created, or the API reports a path conflict (folder already exists), or the
API reports some other error, or a non-ApiError exception escapes. -/
inductive FolderApiResult where
  | created
  | conflict
  | apiError (msg : String)
  | exn (msg : String)
deriving DecidableEq

/-- Embedding of `DropboxClient.create_folder` (dropbox_client.py lines
96-116): returns `true` when the folder is created or already exists
(path-conflict ApiError), returns `false` on any other ApiError, and lets a
non-ApiError exception propagate. -/
def create_folder : FolderApiResult → StepResult Bool
  | FolderApiResult.created => StepResult.ok true
  | FolderApiResult.conflict => StepResult.ok true
  | FolderApiResult.apiError _ => StepResult.ok false
  | FolderApiResult.exn m => StepResult.exn m

/-- The collaborator outcomes a single `backup_repository` call can observe:
the clone result, the zip-creation result (zipfile writing may raise an
OSError), the Dropbox folder-API result, and the upload result
(`DropboxClient.upload_file` catches every exception internally and returns a
bool, dropbox_client.py lines 44-66). -/
structure BackupEnv where
  cloneResult : CloneResult
  zipResult : StepResult Unit
  folderApi : FolderApiResult
  uploadResult : Bool
deriving DecidableEq

/-- Embedding of `BackupManager.backup_repository` (backup_manager.py lines
117-174).  Returns the bool result together with the list of steps the call
actually performed, in order.  Control flow follows the source: a non-zero
clone exit or a clone timeout returns `false` before the zip step; an
exception while zipping is caught by the outer handler and returns `false`; a
non-ApiError exception from `create_folder` is likewise caught and returns
`false`; otherwise the bool returned by `create_folder` is discarded (line
157 ignores the return value) and the upload result is returned as is. -/
def backup_repository (env : BackupEnv) : Bool × List Step :=
  match env.cloneResult with
  | CloneResult.timeout => (false, [Step.clone])
  | CloneResult.exit code _ =>
    if code ≠ 0 then
      (false, [Step.clone])
    else
      match env.zipResult with
      | StepResult.exn _ => (false, [Step.clone, Step.archive])
      | StepResult.ok _ =>
        match create_folder env.folderApi with
        | StepResult.exn _ => (false, [Step.clone, Step.archive, Step.folderEnsure])
        | StepResult.ok _ =>
          (env.uploadResult, [Step.clone, Step.archive, Step.folderEnsure, Step.upload])

/-- The clone step failed: non-zero exit code or timeout. -/
def cloneFailed (env : BackupEnv) : Bool :=
  match env.cloneResult with
  | CloneResult.timeout => true
  | CloneResult.exit code _ => decide (code ≠ 0)

/-- The zip-archive step raised an exception. -/
def archiveRaised (env : BackupEnv) : Bool :=
  match env.zipResult with
  | StepResult.exn _ => true
  | StepResult.ok _ => false

/-- The folder-ensure step raised a non-ApiError exception (the only folder
failure `backup_repository` can observe, since it ignores the returned
bool). -/
def folderRaised (env : BackupEnv) : Bool :=
  match create_folder env.folderApi with
  | StepResult.exn _ => true
  | StepResult.ok _ => false

/-- The folder-ensure step succeeded in the sense of the spec: `create_folder`
returned `true` (folder created, or it already existed). -/
def folderEnsureSucceeded (env : BackupEnv) : Bool :=
  match create_folder env.folderApi with
  | StepResult.ok b => b
  | StepResult.exn _ => false

/-- Environment in which every collaborator succeeds except the Dropbox
folder call, which reports a non-conflict ApiError; the upload nevertheless
succeeds. -/
def envFolderApiError : BackupEnv :=
  { cloneResult := CloneResult.exit 0 ""
  , zipResult := StepResult.ok ()
  , folderApi := FolderApiResult.apiError "insufficient_space"
  , uploadResult := true }

/-- Environment in which the git clone hits the 300-second timeout. -/
def envCloneTimeout : BackupEnv :=
  { cloneResult := CloneResult.timeout
  , zipResult := StepResult.ok ()
  , folderApi := FolderApiResult.created
  , uploadResult := true }

/-- Environment in which every step succeeds. -/
def envAllOk : BackupEnv :=
  { cloneResult := CloneResult.exit 0 ""
  , zipResult := StepResult.ok ()
  , folderApi := FolderApiResult.created
  , uploadResult := true }

/- Full-backup orchestration: `BackupManager.backup_all_repositories`
(backup_manager.py lines 45-115). -/

/-- One entry of the `backup_details` list built at backup_manager.py lines
92-100 (the `timestamp` string is omitted from the embedding). -/
structure BackupDetail where
  repo_name : String
  full_name : String
  success : Bool
  priv : Bool
  size_kb : Nat
deriving DecidableEq

/-- The detail dictionary recorded for one attempted repository. -/
def mkDetail (r : Repository) (success : Bool) : BackupDetail :=
  { repo_name := r.name
  , full_name := r.full_name
  , success := success
  , priv := r.priv
  , size_kb := r.size }

/-- The `results` dictionary returned by `backup_all_repositories`
(backup_manager.py lines 60-66 and 111-115); `error` is the key added only
when the surrounding try-block catches an exception. -/
structure BackupResults where
  total_repos : Nat
  successful_backups : Nat
  failed_backups : Nat
  skipped_repos : Nat
  backup_details : List BackupDetail
  error : Option String
deriving DecidableEq

/-- Why a repository was skipped by the filtering loop. -/
inductive SkipReason where
  | excluded
  | privateRepo
deriving DecidableEq

/-- The two skip checks of the filtering loop (backup_manager.py lines
74-84), in source order: the exclusion-list check first, then the privacy
check; `none` means the repository is kept for backup. -/
def skipCheck (exclude_repos : List String) (include_private : Bool)
    (r : Repository) : Option SkipReason :=
  if exclude_repos.contains r.name then some SkipReason.excluded
  else if !include_private && r.priv then some SkipReason.privateRepo
  else none

/-- The filtering loop (backup_manager.py lines 73-85): returns the number of
skipped repositories and the kept repositories in listing order. -/
def filterRepos (exclude_repos : List String) (include_private : Bool) :
    List Repository → Nat × List Repository
  | [] => (0, [])
  | r :: rs =>
    let rest := filterRepos exclude_repos include_private rs
    match skipCheck exclude_repos include_private r with
    | some _ => (rest.1 + 1, rest.2)
    | none => (rest.1, r :: rest.2)

/-- The per-repository backup loop (backup_manager.py lines 88-105): returns
the success count, the failure count, and the detail list in listing order.
`doBackup` abstracts the `backup_repository` call for each repository. -/
def runBackups (doBackup : Repository → Bool) :
    List Repository → Nat × Nat × List BackupDetail
  | [] => (0, 0, [])
  | r :: rs =>
    let success := doBackup r
    let rest := runBackups doBackup rs
    if success then
      (rest.1 + 1, rest.2.1, mkDetail r success :: rest.2.2)
    else
      (rest.1, rest.2.1 + 1, mkDetail r success :: rest.2.2)

/-- Embedding of `BackupManager.backup_all_repositories` (backup_manager.py
lines 45-115).  `listing` is the outcome of the
`github_client.get_user_repositories` call: an exception there is caught by
the surrounding try-block, leaving every counter at its initial zero and
adding the `error` key; otherwise `total_repos` is the length of the fetched
listing, the repositories are filtered, and each kept repository is backed up
and recorded. -/
def backup_all_repositories (listing : Except String (List Repository))
    (exclude_repos : List String) (include_private : Bool)
    (doBackup : Repository → Bool) : BackupResults :=
  match listing with
  | Except.error e =>
    { total_repos := 0, successful_backups := 0, failed_backups := 0
    , skipped_repos := 0, backup_details := [], error := some e }
  | Except.ok repos =>
    let fr := filterRepos exclude_repos include_private repos
    let rb := runBackups doBackup fr.2
    { total_repos := repos.length
    , successful_backups := rb.1
    , failed_backups := rb.2.1
    , skipped_repos := fr.1
    , backup_details := rb.2.2
    , error := none }

/- Targeted backup: `BackupManager.backup_specific_repositories`
(backup_manager.py lines 176-234). -/

/-- One entry of the `backup_details` list built by
`backup_specific_repositories` (lines 210-215 and 226-231); the exception
path additionally records the error message. -/
structure SpecificDetail where
  repo_name : String
  success : Bool
  error : Option String
deriving DecidableEq

/-- Running totals of the targeted-backup loop, plus `listing_fetches`, an
observational count of how many times the loop body invoked
`github_client.get_user_repositories` (the call at line 200). -/
structure SpecificAcc where
  successful_backups : Nat
  failed_backups : Nat
  not_found_repos : Nat
  backup_details : List SpecificDetail
  listing_fetches : Nat
deriving DecidableEq

/-- The `results` dictionary returned by `backup_specific_repositories`
(backup_manager.py lines 186-192). -/
structure SpecificResults where
  requested_repos : Nat
  successful_backups : Nat
  failed_backups : Nat
  not_found_repos : Nat
  backup_details : List SpecificDetail
deriving DecidableEq

/-- The per-name loop of `backup_specific_repositories` (backup_manager.py
lines 194-232).  `get_repository` is the outcome of the direct
`github_client.get_repository(username, name)` fetch (an HTTP error there
raises and is caught by the per-name handler at lines 223-232, which counts
the name as failed); `listing` is the outcome of the
`github_client.get_user_repositories()` call that the no-account branch makes
anew on every iteration (line 200); a name absent from a fetched listing is
counted as not found and recorded in no detail (lines 202-205). -/
def specificLoop (username : Option String)
    (get_repository : String → String → Except String Repository)
    (listing : Except String (List Repository))
    (doBackup : Repository → Bool) : List String → SpecificAcc
  | [] =>
    { successful_backups := 0, failed_backups := 0, not_found_repos := 0
    , backup_details := [], listing_fetches := 0 }
  | n :: ns =>
    let rest := specificLoop username get_repository listing doBackup ns
    match username with
    | some u =>
      match get_repository u n with
      | Except.error e =>
        { rest with
          failed_backups := rest.failed_backups + 1
        , backup_details :=
            { repo_name := n, success := false, error := some e } :: rest.backup_details }
      | Except.ok repo =>
        if doBackup repo then
          { rest with
            successful_backups := rest.successful_backups + 1
          , backup_details :=
              { repo_name := repo.name, success := true, error := none } :: rest.backup_details }
        else
          { rest with
            failed_backups := rest.failed_backups + 1
          , backup_details :=
              { repo_name := repo.name, success := false, error := none } :: rest.backup_details }
    | none =>
      match listing with
      | Except.error e =>
        { rest with
          failed_backups := rest.failed_backups + 1
        , backup_details :=
            { repo_name := n, success := false, error := some e } :: rest.backup_details
        , listing_fetches := rest.listing_fetches + 1 }
      | Except.ok repos =>
        match repos.find? (fun r => r.name == n) with
        | none =>
          { rest with
            not_found_repos := rest.not_found_repos + 1
          , listing_fetches := rest.listing_fetches + 1 }
        | some repo =>
          if doBackup repo then
            { rest with
              successful_backups := rest.successful_backups + 1
            , backup_details :=
                { repo_name := repo.name, success := true, error := none } :: rest.backup_details
            , listing_fetches := rest.listing_fetches + 1 }
          else
            { rest with
              failed_backups := rest.failed_backups + 1
            , backup_details :=
                { repo_name := repo.name, success := false, error := none } :: rest.backup_details
            , listing_fetches := rest.listing_fetches + 1 }

/-- Embedding of `BackupManager.backup_specific_repositories`
(backup_manager.py lines 176-234), returning the results dictionary together
with the observational count of listing fetches made during the call. -/
def backup_specific_repositories (username : Option String)
    (get_repository : String → String → Except String Repository)
    (listing : Except String (List Repository))
    (doBackup : Repository → Bool) (repo_names : List String) :
    SpecificResults × Nat :=
  let acc := specificLoop username get_repository listing doBackup repo_names
  ({ requested_repos := repo_names.length
   , successful_backups := acc.successful_backups
   , failed_backups := acc.failed_backups
   , not_found_repos := acc.not_found_repos
   , backup_details := acc.backup_details }, acc.listing_fetches)

/- Archive creation: the zip loop of `backup_repository` (backup_manager.py
lines 146-150). -/

/-- A node of the cloned mirror directory tree: a regular file or a
directory with children. -/
inductive FSTree where
  | file (name : String)
  | dir (name : String) (children : List FSTree)

/-- Embedding of `Path.rglob` over a list of sibling trees: every descendant
entry, as its path relative to the mirror root (the result of
`file_path.relative_to(repo_path)`) paired with the result of
`file_path.is_file()`. -/
def rglobList (base : List String) : List FSTree → List (List String × Bool)
  | [] => []
  | FSTree.file n :: ts => (base ++ [n], true) :: rglobList base ts
  | FSTree.dir n cs :: ts =>
    (base ++ [n], false) :: (rglobList (base ++ [n]) cs ++ rglobList base ts)

/-- Embedding of the zip loop (backup_manager.py lines 146-150): the archive
entries are exactly the `rglob` results that pass the `is_file()` check, each
written under its path relative to the mirror root, in traversal order. -/
def archiveEntries (root : List FSTree) : List (List String) :=
  ((rglobList [] root).filter (fun e => e.2)).map (fun e => e.1)

/-- The regular files of the mirror directory tree, each as its path relative
to the mirror root.  This definition follows the wording of the spec
(archive round-trip property), to be compared with `archiveEntries`, which
follows the code. -/
def regularFilesList (base : List String) : List FSTree → List (List String)
  | [] => []
  | FSTree.file n :: ts => (base ++ [n]) :: regularFilesList base ts
  | FSTree.dir n cs :: ts =>
    regularFilesList (base ++ [n]) cs ++ regularFilesList base ts

/- Upload mode: `DropboxClient.upload_file` (dropbox_client.py lines 33-66)
and its call site in `backup_repository` (backup_manager.py line 160). -/

/-- The Dropbox write mode carried by an upload request. -/
inductive WriteMode where
  | overwrite
  | add
deriving DecidableEq

/-- Default value of the `overwrite` parameter in the signature of
`DropboxClient.upload_file` (dropbox_client.py line 33: `overwrite: bool =
True`). -/
def upload_file_overwrite_default : Bool := true

/-- The write mode `upload_file` selects (dropbox_client.py lines 49 and 84,
identical on the simple and chunked paths): overwrite mode when `overwrite`
is true, add mode otherwise. -/
def uploadWriteMode (overwrite : Bool) : WriteMode :=
  if overwrite then WriteMode.overwrite else WriteMode.add

/-- An `upload_file` invocation as constructed by a caller. -/
structure UploadCall where
  local_path : String
  dropbox_path : String
  overwrite : Bool
deriving DecidableEq

/-- The call `upload_file(str(zip_path), dropbox_path)` made by
`backup_repository` (backup_manager.py line 160): the `overwrite` argument is
not passed, so the signature default applies. -/
def backupUploadCall (zip_path dropbox_path : String) : UploadCall :=
  { local_path := zip_path
  , dropbox_path := dropbox_path
  , overwrite := upload_file_overwrite_default }

/-- Modelled from the spec: the write-mode semantics of the external Storage
Upload Client (spec section 6; the Dropbox API behind
`dropbox.files.WriteMode`, not part of this repository): writing in
overwrite mode replaces whatever exists at the destination path and
succeeds, while writing in add mode fails with a conflict when a file
already exists there. -/
def remoteWrite (existing : Option String) (mode : WriteMode)
    (content : String) : Except String String :=
  match mode with
  | WriteMode.overwrite => Except.ok content
  | WriteMode.add =>
    match existing with
    | none => Except.ok content
    | some _ => Except.error "conflict"

/- Concrete instances used to exercise the embedding. -/

/-- A sample repository record. -/
def repoA : Repository :=
  { name := "alpha"
  , full_name := "user/alpha"
  , clone_url := "https://example.com/user/alpha.git"
  , default_branch := "main"
  , priv := false
  , size := 10
  , updated_at := "2024-01-01T00:00:00Z" }

/-- A `get_repository` collaborator whose direct fetch always fails, as the
GitHub API does for a missing repository (requests raises on the 404 via
`raise_for_status`, github_client.py line 104). -/
def getRepositoryNotFound : String → String → Except String Repository :=
  fun _ _ => Except.error "404 Client Error: Not Found"

/-- Collaborator outcomes in which every clone times out. -/
def envOfTimeout : Repository → BackupEnv := fun _ => envCloneTimeout

/- Helper lemmas about the orchestration loops. -/

theorem filterRepos_count (exclude_repos : List String) (include_private : Bool)
    (repos : List Repository) :
    (filterRepos exclude_repos include_private repos).1
      = (repos.filter
          (fun x => (skipCheck exclude_repos include_private x).isSome)).length := by
  induction repos with
  | nil => rfl
  | cons r rs ih =>
    simp only [filterRepos, List.filter_cons]
    cases h : skipCheck exclude_repos include_private r <;> simp [h, ih]

theorem filterRepos_kept (exclude_repos : List String) (include_private : Bool)
    (repos : List Repository) :
    (filterRepos exclude_repos include_private repos).2
      = repos.filter (fun x => (skipCheck exclude_repos include_private x).isNone) := by
  induction repos with
  | nil => rfl
  | cons r rs ih =>
    simp only [filterRepos, List.filter_cons]
    cases h : skipCheck exclude_repos include_private r <;> simp [h, ih]

theorem filterRepos_total (exclude_repos : List String) (include_private : Bool)
    (repos : List Repository) :
    (filterRepos exclude_repos include_private repos).1
      + (filterRepos exclude_repos include_private repos).2.length
      = repos.length := by
  induction repos with
  | nil => rfl
  | cons r rs ih =>
    simp only [filterRepos]
    cases h : skipCheck exclude_repos include_private r <;>
      simp [h] <;> omega

theorem runBackups_counts (doBackup : Repository → Bool) (l : List Repository) :
    (runBackups doBackup l).1 + (runBackups doBackup l).2.1 = l.length := by
  induction l with
  | nil => rfl
  | cons r rs ih =>
    simp only [runBackups]
    cases h : doBackup r <;> simp [h] <;> omega

theorem runBackups_details (doBackup : Repository → Bool) (l : List Repository) :
    (runBackups doBackup l).2.2 = l.map (fun r => mkDetail r (doBackup r)) := by
  induction l with
  | nil => rfl
  | cons r rs ih =>
    simp only [runBackups]
    cases h : doBackup r <;> simp [h, ih]

/- Claim C1. -/

/-- C1 counterexample: in `envFolderApiError` the Dropbox folder-ensure step
fails (`create_folder` returns false because the API reported a non-conflict
error), yet `backup_repository` still performs the upload step and returns
true — so it is not the case that a true result implies all four steps
succeeded, nor that a folder-ensure failure short-circuits. -/
theorem C1_counterexample :
    folderEnsureSucceeded envFolderApiError = false ∧
    (backup_repository envFolderApiError).fst = true ∧
    Step.upload ∈ (backup_repository envFolderApiError).snd := by
  decide

/-- C1 (amended): `backup_repository` returns true exactly when the clone
succeeded, the zip step did not raise, the folder-ensure step did not raise,
and the upload returned true; clone failure, a zip exception, and a
folder-ensure exception each short-circuit the remaining steps and return
false; when none of these occur, all four steps run and the result is the
upload result — the boolean returned by `create_folder` is ignored. -/
theorem C1_success_iff (env : BackupEnv) :
    ((backup_repository env).fst = true ↔
      (cloneFailed env = false ∧ archiveRaised env = false ∧
       folderRaised env = false ∧ env.uploadResult = true)) ∧
    (cloneFailed env = true → backup_repository env = (false, [Step.clone])) ∧
    (cloneFailed env = false → archiveRaised env = true →
      backup_repository env = (false, [Step.clone, Step.archive])) ∧
    (cloneFailed env = false → archiveRaised env = false → folderRaised env = true →
      backup_repository env = (false, [Step.clone, Step.archive, Step.folderEnsure])) ∧
    (cloneFailed env = false → archiveRaised env = false → folderRaised env = false →
      backup_repository env
        = (env.uploadResult,
           [Step.clone, Step.archive, Step.folderEnsure, Step.upload])) := by
  obtain ⟨cr, zr, fa, ub⟩ := env
  cases cr with
  | timeout =>
    simp [backup_repository, cloneFailed, archiveRaised, folderRaised]
  | exit code stderr =>
    by_cases hc : code = 0
    · subst hc
      cases zr with
      | exn m =>
        simp [backup_repository, cloneFailed, archiveRaised, folderRaised]
      | ok u =>
        cases fa <;> cases ub <;>
          simp [backup_repository, cloneFailed, archiveRaised, folderRaised,
            create_folder]
    · simp [backup_repository, cloneFailed, archiveRaised, folderRaised, hc]

/-- C1 witness: the amended characterization instantiated at an environment
in which every step succeeds. -/
theorem C1_success_iff_witness :
    ((backup_repository envAllOk).fst = true ↔
      (cloneFailed envAllOk = false ∧ archiveRaised envAllOk = false ∧
       folderRaised envAllOk = false ∧ envAllOk.uploadResult = true)) ∧
    (cloneFailed envAllOk = true → backup_repository envAllOk = (false, [Step.clone])) ∧
    (cloneFailed envAllOk = false → archiveRaised envAllOk = true →
      backup_repository envAllOk = (false, [Step.clone, Step.archive])) ∧
    (cloneFailed envAllOk = false → archiveRaised envAllOk = false →
      folderRaised envAllOk = true →
      backup_repository envAllOk
        = (false, [Step.clone, Step.archive, Step.folderEnsure])) ∧
    (cloneFailed envAllOk = false → archiveRaised envAllOk = false →
      folderRaised envAllOk = false →
      backup_repository envAllOk
        = (envAllOk.uploadResult,
           [Step.clone, Step.archive, Step.folderEnsure, Step.upload])) :=
  C1_success_iff envAllOk

/- Claim C2. -/

/-- C2: for every full-backup run — any listing outcome, exclude list,
include-private flag, and per-repository backup results — the returned
summary satisfies total_repos = successful_backups + failed_backups +
skipped_repos. -/
theorem C2_total_invariant (listing : Except String (List Repository))
    (exclude_repos : List String) (include_private : Bool)
    (doBackup : Repository → Bool) :
    (backup_all_repositories listing exclude_repos include_private doBackup).total_repos
      = (backup_all_repositories listing exclude_repos include_private
          doBackup).successful_backups
        + (backup_all_repositories listing exclude_repos include_private
            doBackup).failed_backups
        + (backup_all_repositories listing exclude_repos include_private
            doBackup).skipped_repos := by
  cases listing with
  | error e => rfl
  | ok repos =>
    have h1 := filterRepos_total exclude_repos include_private repos
    have h2 := runBackups_counts doBackup
      (filterRepos exclude_repos include_private repos).2
    simp only [backup_all_repositories]
    omega

/- Claim C3. -/

/-- C3: in a full-backup run with listing `repos`, the summary's total equals
the listing length; the skipped count is exactly the number of listing
entries failing a skip check (each skipped repository counted once); the
recorded details are exactly the non-skipped listing entries in order (so a
skipped repository is never attempted); a repository is skipped exactly when
its name is in the exclude list or the include-private flag is off and the
repository is private; and the skip reason is the exclusion one exactly when
the name is in the exclude list, the exclusion check being evaluated before
the privacy check. -/
theorem C3_skip_semantics (repos : List Repository) (exclude_repos : List String)
    (include_private : Bool) (doBackup : Repository → Bool) (r : Repository) :
    (backup_all_repositories (Except.ok repos) exclude_repos include_private
        doBackup).total_repos = repos.length ∧
    (backup_all_repositories (Except.ok repos) exclude_repos include_private
        doBackup).skipped_repos
      = (repos.filter
          (fun x => (skipCheck exclude_repos include_private x).isSome)).length ∧
    ((backup_all_repositories (Except.ok repos) exclude_repos include_private
        doBackup).backup_details.map (fun d => d.repo_name)
      = (repos.filter
          (fun x => (skipCheck exclude_repos include_private x).isNone)).map
          (fun x => x.name)) ∧
    ((skipCheck exclude_repos include_private r).isSome
      = (exclude_repos.contains r.name || (!include_private && r.priv))) ∧
    (skipCheck exclude_repos include_private r = some SkipReason.excluded
      ↔ exclude_repos.contains r.name = true) := by
  refine ⟨rfl, ?_, ?_, ?_, ?_⟩
  · simp only [backup_all_repositories]
    exact filterRepos_count exclude_repos include_private repos
  · simp only [backup_all_repositories]
    rw [runBackups_details, filterRepos_kept]
    simp [mkDetail]
  · unfold skipCheck
    by_cases h1 : r.name ∈ exclude_repos
    · simp [h1]
    · cases include_private <;> cases hp : r.priv <;> simp_all
  · unfold skipCheck
    by_cases h1 : r.name ∈ exclude_repos
    · simp [h1]
    · cases include_private <;> cases hp : r.priv <;> simp_all

/- More helper lemmas. -/

theorem backup_repository_of_cloneFailed (env : BackupEnv)
    (h : cloneFailed env = true) :
    backup_repository env = (false, [Step.clone]) := by
  obtain ⟨cr, zr, fa, ub⟩ := env
  cases cr with
  | timeout => rfl
  | exit code stderr =>
    simp only [cloneFailed, decide_eq_true_eq] at h
    simp [backup_repository, h]

theorem backup_details_mem (repos : List Repository) (exclude_repos : List String)
    (include_private : Bool) (doBackup : Repository → Bool) (d : BackupDetail)
    (hd : d ∈ (backup_all_repositories (Except.ok repos) exclude_repos
        include_private doBackup).backup_details) :
    ∃ r, r ∈ repos ∧ d = mkDetail r (doBackup r) := by
  simp only [backup_all_repositories] at hd
  rw [runBackups_details, filterRepos_kept] at hd
  simp only [List.mem_map] at hd
  obtain ⟨r, hr, hdr⟩ := hd
  exact ⟨r, (List.mem_filter.mp hr).1, hdr.symm⟩

/- Claim C4. -/

/-- C4: in a full-backup run, any recorded detail whose repository name only
matches listing entries with a failing clone (non-zero exit or timeout) is
recorded with success = false, and for such a repository
`backup_repository` returns false having performed only the clone step —
the archive, folder-ensure, and upload steps are never attempted. -/
theorem C4_clone_failure (envOf : Repository → BackupEnv) (repos : List Repository)
    (exclude_repos : List String) (include_private : Bool) (d : BackupDetail)
    (r : Repository)
    (hd : d ∈ (backup_all_repositories (Except.ok repos) exclude_repos
        include_private (fun x => (backup_repository (envOf x)).fst)).backup_details)
    (hfail : ∀ x ∈ repos, x.name = d.repo_name → cloneFailed (envOf x) = true)
    (hr : r ∈ repos) (hname : r.name = d.repo_name) :
    d.success = false ∧ backup_repository (envOf r) = (false, [Step.clone]) := by
  obtain ⟨x, hx, hdx⟩ := backup_details_mem repos exclude_repos include_private
    (fun y => (backup_repository (envOf y)).fst) d hd
  subst hdx
  refine ⟨?_, backup_repository_of_cloneFailed _ (hfail r hr hname)⟩
  have hxf := hfail x hx rfl
  have hxr := backup_repository_of_cloneFailed _ hxf
  simp [mkDetail, hxr]

/-- C4 witness: a one-repository run in which the clone times out. -/
theorem C4_clone_failure_witness :
    (mkDetail repoA false).success = false ∧
    backup_repository (envOfTimeout repoA) = (false, [Step.clone]) :=
  C4_clone_failure envOfTimeout [repoA] [] true (mkDetail repoA false) repoA
    (by decide) (by decide) (by decide) (by decide)

/- Claim C5. -/

/-- C5 counterexample: in a targeted backup with an account given and a
requested name that is absent remotely (the direct fetch raises a 404), the
name is counted in the failed counter, not in the not_found counter — the
claim says the opposite. -/
theorem C5_counterexample :
    ((backup_specific_repositories (some "user") getRepositoryNotFound
        (Except.ok []) (fun _ => true) ["missing"]).fst.not_found_repos = 0) ∧
    ((backup_specific_repositories (some "user") getRepositoryNotFound
        (Except.ok []) (fun _ => true) ["missing"]).fst.failed_backups = 1) := by
  decide

/-- C5 (amended): in a targeted backup with an account given, a requested
name whose direct per-repository fetch fails is counted in the failed
counter (not in not_found), a failed detail carrying the error message is
recorded for it, every other counter is unchanged, and the run continues
with the remaining names. -/
theorem C5_account_fetch_error (u : String)
    (get_repository : String → String → Except String Repository)
    (listing : Except String (List Repository)) (doBackup : Repository → Bool)
    (n : String) (ns : List String) (e : String)
    (h : get_repository u n = Except.error e) :
    specificLoop (some u) get_repository listing doBackup (n :: ns)
      = { specificLoop (some u) get_repository listing doBackup ns with
          failed_backups :=
            (specificLoop (some u) get_repository listing doBackup ns).failed_backups
              + 1
        , backup_details :=
            { repo_name := n, success := false, error := some e }
              :: (specificLoop (some u) get_repository listing doBackup
                  ns).backup_details } := by
  simp [specificLoop, h]

/-- C5 witness: a single requested name whose direct fetch fails. -/
theorem C5_account_fetch_error_witness :
    specificLoop (some "user") getRepositoryNotFound (Except.ok [])
        (fun _ => true) ["missing"]
      = { specificLoop (some "user") getRepositoryNotFound (Except.ok [])
            (fun _ => true) [] with
          failed_backups :=
            (specificLoop (some "user") getRepositoryNotFound (Except.ok [])
                (fun _ => true) []).failed_backups + 1
        , backup_details :=
            { repo_name := "missing", success := false
            , error := some "404 Client Error: Not Found" }
              :: (specificLoop (some "user") getRepositoryNotFound (Except.ok [])
                  (fun _ => true) []).backup_details } :=
  C5_account_fetch_error "user" getRepositoryNotFound (Except.ok [])
    (fun _ => true) "missing" [] "404 Client Error: Not Found" rfl

/- Claim C6. -/

theorem specificLoop_fetches_ok
    (get_repository : String → String → Except String Repository)
    (repos : List Repository) (doBackup : Repository → Bool)
    (names : List String) :
    (specificLoop none get_repository (Except.ok repos) doBackup
        names).listing_fetches = names.length := by
  induction names with
  | nil => rfl
  | cons n ns ih =>
    simp only [specificLoop]
    cases h : repos.find? (fun r => r.name == n) with
    | none => simp [h, ih]
    | some repo => cases hb : doBackup repo <;> simp [h, hb, ih]

theorem specificLoop_notfound_ok
    (get_repository : String → String → Except String Repository)
    (repos : List Repository) (doBackup : Repository → Bool)
    (names : List String) :
    (specificLoop none get_repository (Except.ok repos) doBackup
        names).not_found_repos
      = (names.filter
          (fun n => (repos.find? (fun r => r.name == n)).isNone)).length := by
  induction names with
  | nil => rfl
  | cons n ns ih =>
    simp only [specificLoop, List.filter_cons]
    cases h : repos.find? (fun r => r.name == n) with
    | none => simp [h, ih]
    | some repo => cases hb : doBackup repo <;> simp [h, hb, ih]

/-- C6 counterexample: in a targeted backup with no account and two requested
names, the full authenticated listing is fetched twice — once per name —
not exactly once as the claim states. -/
theorem C6_counterexample :
    ((backup_specific_repositories none getRepositoryNotFound (Except.ok [])
        (fun _ => true) ["alpha", "beta"]).snd = 2) ∧
    ¬ ((backup_specific_repositories none getRepositoryNotFound (Except.ok [])
        (fun _ => true) ["alpha", "beta"]).snd = 1) := by
  decide

/-- C6 (amended): in a targeted backup with no account whose listing call
succeeds, the full authenticated listing is fetched anew for every requested
name — the number of listing fetches equals the number of requested names —
and each name is looked up in the freshly fetched listing; a name absent
from the listing is counted in not_found (one per absent name), not raised
as an error. -/
theorem C6_per_name_fetch
    (get_repository : String → String → Except String Repository)
    (repos : List Repository) (doBackup : Repository → Bool)
    (names : List String) :
    ((backup_specific_repositories none get_repository (Except.ok repos)
        doBackup names).snd = names.length) ∧
    ((backup_specific_repositories none get_repository (Except.ok repos)
        doBackup names).fst.not_found_repos
      = (names.filter
          (fun n => (repos.find? (fun r => r.name == n)).isNone)).length) :=
  ⟨specificLoop_fetches_ok get_repository repos doBackup names,
   specificLoop_notfound_ok get_repository repos doBackup names⟩

/- Claim C7. -/

theorem rglob_filter_files (base : List String) (ts : List FSTree) :
    ((rglobList base ts).filter (fun e => e.2)).map (fun e => e.1)
      = regularFilesList base ts := by
  induction base, ts using rglobList.induct with
  | case1 base => simp [rglobList, regularFilesList]
  | case2 base n ts ih =>
    simp only [rglobList, regularFilesList, List.filter_cons]
    simp [ih]
  | case3 base n cs ts ih1 ih2 =>
    simp only [rglobList, regularFilesList, List.filter_cons]
    simp [List.filter_append, ih1, ih2]

/-- C7: for every cloned mirror directory tree, the produced archive contains
exactly the regular files of the tree, each at its path relative to the
mirror root, with no entries other than those files — the entry list of the
archive coincides with the list of regular-file paths. -/
theorem C7_archive_roundtrip (root : List FSTree) (p : List String) :
    archiveEntries root = regularFilesList [] root ∧
    (p ∈ archiveEntries root ↔ p ∈ regularFilesList [] root) := by
  have h := rglob_filter_files [] root
  exact ⟨h, by rw [archiveEntries, h]⟩

/- Claim C8. -/

theorem specificLoop_names_sublist
    (get_repository : String → String → Except String Repository)
    (repos : List Repository) (doBackup : Repository → Bool)
    (names : List String) :
    ((specificLoop none get_repository (Except.ok repos) doBackup
        names).backup_details.map (fun d => d.repo_name)).Sublist names := by
  induction names with
  | nil => simp [specificLoop]
  | cons n ns ih =>
    simp only [specificLoop]
    cases h : repos.find? (fun r => r.name == n) with
    | none =>
      simp only [h]
      exact ih.cons n
    | some repo =>
      have hname : repo.name = n := by
        have := List.find?_some h
        simpa using this
      cases hb : doBackup repo <;>
        · simp only [h, hb, List.map_cons, hname]
          exact ih.cons₂ n

/-- C8 counterexample: a targeted run requesting the same existing name twice
records two BackupOutcomes for that one name, so a name does not map to at
most one outcome per run. -/
theorem C8_counterexample :
    ((backup_specific_repositories none getRepositoryNotFound
        (Except.ok [repoA]) (fun _ => true) ["alpha", "alpha"]).fst.backup_details.map
        (fun d => d.repo_name) = ["alpha", "alpha"]) ∧
    ¬ ((backup_specific_repositories none getRepositoryNotFound
        (Except.ok [repoA]) (fun _ => true) ["alpha", "alpha"]).fst.backup_details.map
        (fun d => d.repo_name)).Nodup := by
  decide

/-- C8 (amended): each run records exactly one BackupOutcome per attempted
item, so each repository name maps to at most one outcome provided the
inputs carry no duplicate names: in a full run whose listing has pairwise
distinct repository names, and in a no-account targeted run whose requested
names are pairwise distinct, the recorded outcome names are duplicate-free;
with duplicated input names, each occurrence yields its own outcome. -/
theorem C8_unique_outcomes (repos : List Repository) (exclude_repos : List String)
    (include_private : Bool) (doBackup : Repository → Bool)
    (get_repository : String → String → Except String Repository)
    (names : List String)
    (h1 : (repos.map (fun r => r.name)).Nodup) (h2 : names.Nodup) :
    ((backup_all_repositories (Except.ok repos) exclude_repos include_private
        doBackup).backup_details.map (fun d => d.repo_name)).Nodup ∧
    ((backup_specific_repositories none get_repository (Except.ok repos)
        doBackup names).fst.backup_details.map (fun d => d.repo_name)).Nodup := by
  constructor
  · have hmap : (backup_all_repositories (Except.ok repos) exclude_repos
        include_private doBackup).backup_details.map (fun d => d.repo_name)
        = (repos.filter
            (fun x => (skipCheck exclude_repos include_private x).isNone)).map
            (fun x => x.name) := by
      simp only [backup_all_repositories]
      rw [runBackups_details, filterRepos_kept]
      simp [mkDetail]
    rw [hmap]
    exact h1.sublist ((List.filter_sublist repos).map (fun x => x.name))
  · exact h2.sublist
      (specificLoop_names_sublist get_repository repos doBackup names)

/-- C8 witness: duplicate-free listing and request inputs. -/
theorem C8_unique_outcomes_witness :
    ((backup_all_repositories (Except.ok [repoA]) [] true
        (fun _ => true)).backup_details.map (fun d => d.repo_name)).Nodup ∧
    ((backup_specific_repositories none getRepositoryNotFound (Except.ok [repoA])
        (fun _ => true) ["alpha"]).fst.backup_details.map
        (fun d => d.repo_name)).Nodup :=
  C8_unique_outcomes [repoA] [] true (fun _ => true) getRepositoryNotFound
    ["alpha"] (by decide) (by decide)

/- Claim C9. -/

/-- C9: when the repository-listing call errors during a full-backup run, the
returned summary has all counters zero, records no outcome, and carries the
error message in its error field; the summary does not depend on the
per-repository backup function, so no repository is attempted. -/
theorem C9_listing_error (e : String) (exclude_repos : List String)
    (include_private : Bool) (doBackup doBackup2 : Repository → Bool) :
    backup_all_repositories (Except.error e) exclude_repos include_private doBackup
      = { total_repos := 0, successful_backups := 0, failed_backups := 0
        , skipped_repos := 0, backup_details := [], error := some e } ∧
    backup_all_repositories (Except.error e) exclude_repos include_private doBackup
      = backup_all_repositories (Except.error e) exclude_repos include_private
          doBackup2 :=
  ⟨rfl, rfl⟩

/- Claim C10. -/

/-- C10: the upload call constructed by `backup_repository` leaves the
`overwrite` parameter at its signature default of true, so `upload_file`
selects the overwrite write mode, under which a file already existing at the
remote destination path is silently replaced and the write succeeds. -/
theorem C10_upload_overwrite (zip_path dropbox_path : String)
    (existing : Option String) (content : String) :
    (backupUploadCall zip_path dropbox_path).overwrite = true ∧
    uploadWriteMode (backupUploadCall zip_path dropbox_path).overwrite
      = WriteMode.overwrite ∧
    remoteWrite existing
        (uploadWriteMode (backupUploadCall zip_path dropbox_path).overwrite)
        content
      = Except.ok content :=
  ⟨rfl, rfl, rfl⟩

end GithubZip
